import Mathlib

/-!
Shallow embedding of the SmartClip video-editor core
(src/App.tsx and src/services/geminiService.ts).

Conventions used throughout:
* JS numbers appearing in oracle payloads are modelled as `Option ℚ`:
  `none` stands for an absent field (or any value whose `Number(...)`
  coercion is non-finite).  Payloads reach the code through `JSON.parse`,
  which can only produce finite doubles or omit a field, so this is exact
  for every reachable input.  The video element duration is likewise
  `Option ℚ` with `none` for the `NaN` it reports before metadata loads.
* JS string truthiness (empty string is falsy) is modelled by `strTruthy`.
* React state updates are modelled as pure state transformers on
  `AppModel`; the transition pulse (`triggerTransition`, a 0.5 s visual
  flash) is recorded in the boolean field `pulsed` of the state produced
  by an operation.
-/

namespace SmartClip

/-- JS truthiness of an optional string: an absent value and the empty
string are falsy, every other string is truthy. -/
def strTruthy : Option String → Bool
  | some s => s ≠ ""
  | none => false

/-- JS `a || b` on optional strings (`b` when `a` is falsy). -/
def jsOrStr (a b : Option String) : Option String :=
  if strTruthy a then a else b

/-- JS `a || d` / `a ? a : d` producing a definite string. -/
def strOrD (a : Option String) (d : String) : String :=
  match a with
  | some s => if s = "" then d else s
  | none => d

/-- A clip record (types.ts `Clip`).  The resolver paths that spread a raw
payload into a clip can leave `title`/`description`/`category` absent and
`tags` absent; those are rendered here as `""` / `[]`, which behave
identically under every truthiness test the code performs on them. -/
structure Clip where
  id : String
  title : String
  description : String
  startTime : ℚ
  endTime : ℚ
  category : String
  tags : List String
deriving DecidableEq, Repr

/-- types.ts `TimeRange` (`{start, end}`); `end` is a Lean keyword, so the
second field is called `stop`. -/
structure TimeRange where
  start : ℚ
  stop : ℚ
deriving DecidableEq, Repr

/-- types.ts `ClipOverlay`. `position` is kept as a plain string. -/
structure ClipOverlay where
  type : String
  content : String
  position : String
deriving DecidableEq, Repr

/-- types.ts `ClipEdit` (per-clip visual edit). -/
structure ClipEdit where
  id : String
  filterStyle : Option String
  subtitles : Option String
  overlay : Option ClipOverlay
deriving DecidableEq, Repr

/-- types.ts `VirtualEdit`.  The code stores `result.data.description`,
which may be absent, hence `Option String` here. -/
structure VirtualEdit where
  isActive : Bool
  description : Option String
  keepSegments : List TimeRange
  filterStyle : Option String
  transitionEffect : Option String
deriving DecidableEq, Repr

/-- types.ts `AnalysisResponse`. -/
structure AnalysisResponse where
  overallSummary : String
  clips : List Clip
deriving DecidableEq, Repr

/-- types.ts `PlayerMode`. -/
inductive PlayerMode where
  | FULL
  | SINGLE
  | REEL
deriving DecidableEq, Repr

/-- The copilot intents (types.ts `CopilotResponse.intent`). -/
inductive Intent where
  | SEARCH
  | EDIT
  | CLIP_EDIT
  | REEL_ADD
  | REEL_REMOVE
  | REEL_CLEAR
  | UNKNOWN
deriving DecidableEq, Repr

/-- The clip-shaped part of a raw oracle payload, as consumed by
`sanitizeClip` (geminiService.ts:61).  All fields are optional. -/
structure ClipPayload where
  id : Option String := none
  title : Option String := none
  description : Option String := none
  startTime : Option ℚ := none
  endTime : Option ℚ := none
  category : Option String := none
  tags : Option (List String) := none
deriving DecidableEq, Repr

/-- A raw `CopilotResponse.data` payload (the intent oracle's `data`
object), with every field optional as in the response schema of
geminiService.ts:491-547. -/
structure CopilotData where
  all : Option Bool := none
  id : Option String := none
  title : Option String := none
  description : Option String := none
  startTime : Option ℚ := none
  endTime : Option ℚ := none
  filterStyle : Option String := none
  subtitles : Option String := none
  overlay : Option ClipOverlay := none
  index : Option ℤ := none
  tags : Option (List String) := none
  keepSegments : Option (List TimeRange) := none
  clips : Option (List ClipPayload) := none
  category : Option String := none
  transitionEffect : Option String := none
deriving DecidableEq, Repr

/-- Sources of generated ids.  The code builds fresh ids from
`Date.now()` and `Math.random()`; the embedding takes them as
parameters. -/
structure FreshIds where
  sanitize : String
  sanitizeAt : Nat → String
  search : String
  reelAt : Nat → String

/-- Shallow embedding of `sanitizeClip` (geminiService.ts:61-93):
coerce a non-finite or negative start to 0, default a missing / invalid
end to `start + 15`, cap the duration at 30 seconds, and default the
string fields.  `fresh` stands for the generated id used when the payload
has no truthy `id`. -/
def sanitizeClip (fresh : String) (c : ClipPayload) : Clip :=
  let start : ℚ :=
    match c.startTime with
    | some q => if q < 0 then 0 else q
    | none => 0
  let e1 : ℚ :=
    match c.endTime with
    | some q => if q ≤ start then start + 15 else q
    | none => start + 15
  let e2 : ℚ := if 30 < e1 - start then start + 30 else e1
  { id := strOrD c.id fresh
    title := strOrD c.title "Untitled Clip"
    description := strOrD c.description "No description provided."
    startTime := start
    endTime := e2
    category := strOrD c.category "Other"
    tags := c.tags.getD [] }

/-- Project the clip-shaped fields out of a copilot payload (the object
`sanitizeClip` is applied to in geminiService.ts:596). -/
def toClipPayload (d : CopilotData) : ClipPayload :=
  { id := d.id
    title := d.title
    description := d.description
    startTime := d.startTime
    endTime := d.endTime
    category := d.category
    tags := d.tags }

/-- View a sanitized clip as a payload again (the result of the JS spread
`{...data, ...sanitized}`: every clip field becomes definite). -/
def clipToPayload (c : Clip) : ClipPayload :=
  { id := some c.id
    title := some c.title
    description := some c.description
    startTime := some c.startTime
    endTime := some c.endTime
    category := some c.category
    tags := some c.tags }

/-- The `data.clips` sanitization of `processUserCommand`
(geminiService.ts:592-594): when a `clips` array is present, each entry
passes through `sanitizeClip`. -/
def sanitizeDataClips (fr : FreshIds) (d : CopilotData) : CopilotData :=
  match d.clips with
  | some cs =>
    { d with clips := some (cs.enum.map fun p =>
        clipToPayload (sanitizeClip (fr.sanitizeAt p.1) p.2)) }
  | none => d

/-- The JS spread `{...data, ...sanitized}` (geminiService.ts:597): every
clip-shaped field of the payload becomes the sanitized clip's value. -/
def mergeSanitized (d : CopilotData) (s : Clip) : CopilotData :=
  { d with
    id := some s.id
    title := some s.title
    description := some s.description
    startTime := some s.startTime
    endTime := some s.endTime
    category := some s.category
    tags := some s.tags }

/-- The post-oracle sanitization step of `processUserCommand`
(geminiService.ts:590-599): sanitize a `clips` array when present, and for
a `SEARCH` intent whose `startTime` is defined, sanitize the payload
itself and spread the sanitized clip back over it. -/
def sanitizeCopilot (fr : FreshIds) (intent : Intent) :
    Option CopilotData → Option CopilotData
  | none => none
  | some d =>
    if intent = Intent.SEARCH ∧ (sanitizeDataClips fr d).startTime.isSome then
      some (mergeSanitized (sanitizeDataClips fr d)
        (sanitizeClip fr.sanitize (toClipPayload (sanitizeDataClips fr d))))
    else
      some (sanitizeDataClips fr d)

/-- Sanitization of the analysis oracle's clip list
(geminiService.ts:407-411): every ingested clip passes through
`sanitizeClip`. -/
def ingestClips (freshAt : Nat → String) (cs : List ClipPayload) : List Clip :=
  cs.enum.map fun p => sanitizeClip (freshAt p.1) p.2

/-- The slice of App.tsx component state that the resolver, the playback
controller and the export path read and write.  `pulsed` records whether
the last operation called `triggerTransition` (App.tsx:481). -/
structure AppModel where
  analysisData : Option AnalysisResponse := none
  reel : List Clip := []
  playerMode : PlayerMode := PlayerMode.FULL
  reelCurrentIndex : Nat := 0
  activeClipId : Option String := none
  virtualEdit : Option VirtualEdit := none
  clipEdits : List (String × ClipEdit) := []
  currentTime : ℚ := 0
  paused : Bool := true
  duration : Option ℚ := none
  infoMessages : List String := []
  pulsed : Bool := false
deriving DecidableEq, Repr

/-- `analysisData?.clips || []` (App.tsx). -/
def clipsOf (st : AppModel) : List Clip :=
  (st.analysisData.map AnalysisResponse.clips).getD []

/-- App.tsx:384-398 `playClip`: enter SINGLE mode on a clip, seek to its
clamped start and play.  (The source also computes a clamped end value it
never uses; that dead computation is omitted.) -/
def playClip (st : AppModel) (c : Clip) : AppModel :=
  let start : ℚ := if c.startTime < 0 then 0 else c.startTime
  { st with
    playerMode := PlayerMode.SINGLE
    activeClipId := some c.id
    currentTime := start
    paused := false }

/-- App.tsx:400-411 `playReel`: with a non-empty reel, enter REEL mode,
reset the cursor to 0, seek to the first entry's clamped start, play, and
clear the VirtualEdit. -/
def playReel (st : AppModel) : AppModel :=
  match st.reel with
  | [] => st
  | c :: _ =>
    let start : ℚ := if c.startTime < 0 then 0 else c.startTime
    { st with
      playerMode := PlayerMode.REEL
      reelCurrentIndex := 0
      currentTime := start
      paused := false
      virtualEdit := none }

/-- A reel entry built from a payload in a `REEL_ADD {clips:[...]}` shape
(App.tsx:283-289): generated id fallback, timestamps coerced to 0 when
absent, category defaulted to Custom, other fields kept as spread. -/
def reelEntryOfPayload (fresh : String) (c : ClipPayload) : Clip :=
  { id := strOrD c.id fresh
    title := c.title.getD ""
    description := c.description.getD ""
    startTime := c.startTime.getD 0
    endTime := c.endTime.getD 0
    category := strOrD c.category "Custom"
    tags := c.tags.getD [] }

/-- The single ad-hoc clip of a `REEL_ADD {startTime, endTime, ...}` shape
(App.tsx:290-297): a plain spread of the payload with timestamps coerced
to 0 when absent; no further sanitization. -/
def adHocClip (d : CopilotData) : Clip :=
  { id := d.id.getD ""
    title := d.title.getD ""
    description := d.description.getD ""
    startTime := d.startTime.getD 0
    endTime := d.endTime.getD 0
    category := d.category.getD ""
    tags := d.tags.getD [] }

/-- The clip built and played by the SEARCH branch of the resolver
(App.tsx:348-354): id / title / tags / category defaulted, timestamps
coerced to 0 when absent, and `endTime` forced to `startTime + 10` when
not after the start. -/
def searchClip (fr : FreshIds) (d : CopilotData) : Clip :=
  let start : ℚ := d.startTime.getD 0
  let e0 : ℚ := d.endTime.getD 0
  { id := strOrD d.id fr.search
    title := strOrD d.title "Found Clip"
    description := d.description.getD ""
    startTime := start
    endTime := if e0 ≤ start then start + 10 else e0
    category := strOrD d.category "Custom"
    tags := d.tags.getD ["Search Result"] }

/-- The `clipsToAdd` computation of the REEL_ADD branch (App.tsx:279-297):
`{all:true}` takes the whole library, a non-empty `clips` array is mapped
through the coercing spread, and otherwise a defined `startTime` yields a
single ad-hoc clip. -/
def reelAddClips (fr : FreshIds) (st : AppModel) (d : CopilotData) : List Clip :=
  if d.all = some true then clipsOf st
  else
    match d.clips with
    | some (c :: cs) =>
      ((c :: cs).enum).map fun p => reelEntryOfPayload (fr.reelAt p.1) p.2
    | _ =>
      match d.startTime with
      | some _ => [adHocClip d]
      | none => []

/-- The per-field merge of a CLIP_EDIT payload into the stored edit of
the active clip (App.tsx:268-275): `payload || previous` on each field. -/
def mergedClipEdit (st : AppModel) (aid : String) (d : CopilotData) : ClipEdit :=
  { id := aid
    filterStyle :=
      jsOrStr d.filterStyle ((st.clipEdits.lookup aid).bind ClipEdit.filterStyle)
    subtitles :=
      jsOrStr d.subtitles ((st.clipEdits.lookup aid).bind ClipEdit.subtitles)
    overlay :=
      match d.overlay with
      | some o => some o
      | none => (st.clipEdits.lookup aid).bind ClipEdit.overlay }

/-- The CLIP_EDIT branch (App.tsx:266-277): requires a truthy active clip
id; stores the merged edit under that id. -/
def resolveClipEdit (st : AppModel) (d : CopilotData) : AppModel :=
  match st.activeClipId with
  | some aid =>
    if aid = "" then st
    else { st with clipEdits := (aid, mergedClipEdit st aid d) :: st.clipEdits }
  | none => st

/-- The library update of the REEL_ADD branch (App.tsx:301-310): prepend
the clips whose id is not already present; keep the library untouched
when none are new. -/
def reelAddLibrary (st : AppModel) (toAdd : List Clip) : AppModel :=
  match toAdd.filter fun nc => !((clipsOf st).any fun oc => oc.id == nc.id) with
  | [] => st
  | u :: us =>
    let nd : AnalysisResponse :=
      { overallSummary :=
          strOrD (st.analysisData.map AnalysisResponse.overallSummary) ""
        clips := (u :: us) ++ clipsOf st }
    { st with analysisData := some nd }

/-- The REEL_ADD branch (App.tsx:278-312): compute `clipsToAdd`, append
it to the reel, update the library unless the `{all:true}` shape was
used, and play the first added clip.  (The reel append does not change
`analysisData`, so the library dedup reads the same clips before and
after it, as in the source.) -/
def resolveReelAdd (fr : FreshIds) (st : AppModel) (d : CopilotData) : AppModel :=
  match reelAddClips fr st d with
  | [] => st
  | c0 :: rest =>
    playClip
      (if d.all = some true then
        { st with reel := st.reel ++ (c0 :: rest) }
       else
        reelAddLibrary { st with reel := st.reel ++ (c0 :: rest) } (c0 :: rest))
      c0

/-- The REEL_REMOVE branch (App.tsx:313-323): index -1 drops the last
entry, an in-range index removes that position, anything else is a
no-op.  (The source would fault on a null `data`; modelled as a no-op,
never exercised.) -/
def resolveReelRemove (st : AppModel) (d : CopilotData) : AppModel :=
  match d.index with
  | some i =>
    if i = -1 then { st with reel := st.reel.dropLast }
    else if 0 ≤ i ∧ i < (st.reel.length : ℤ) then
      { st with reel := st.reel.eraseIdx i.toNat }
    else st
  | none => st

/-- `videoRef.current?.duration || 100` (App.tsx:328): an unknown or zero
duration falls back to 100. -/
def jsDuration : Option ℚ → ℚ
  | some q => if q = 0 then 100 else q
  | none => 100

/-- The VirtualEdit built by the EDIT branch (App.tsx:330-336). -/
def newVirtualEdit (st : AppModel) (d : CopilotData) : VirtualEdit :=
  { isActive := true
    description := d.description
    keepSegments := d.keepSegments.getD [TimeRange.mk 0 (jsDuration st.duration)]
    filterStyle := d.filterStyle
    transitionEffect := d.transitionEffect }

/-- The EDIT branch (App.tsx:326-336): replace the global VirtualEdit
wholesale. -/
def resolveEdit (st : AppModel) (d : CopilotData) : AppModel :=
  { st with virtualEdit := some (newVirtualEdit st d) }

/-- The library update of the SEARCH branch (App.tsx:356-362). -/
def addSearchClip (st : AppModel) (clip : Clip) : AppModel :=
  let nd : AnalysisResponse :=
    { overallSummary :=
        strOrD (st.analysisData.map AnalysisResponse.overallSummary)
          "Search Results"
      clips := clip :: clipsOf st }
  { st with analysisData := some nd }

/-- The SEARCH branch (App.tsx:337-364): a `-1` start only appends the
informational message; otherwise the defaulted clip (`searchClip`) is
prepended unless its id already exists, and is then played in SINGLE
mode. -/
def resolveSearch (fr : FreshIds) (st : AppModel) (d : CopilotData) : AppModel :=
  if d.startTime = some (-1) then
    { st with infoMessages := st.infoMessages ++
      ["I found the topic, but could not timestamp it accurately."] }
  else
    playClip
      (if (clipsOf st).any fun c => c.id == (searchClip fr d).id then st
       else addSearchClip st (searchClip fr d))
      (searchClip fr d)

/-- The Edit Resolver: the intent dispatch of `handleSendMessage`
(App.tsx:264-364), as a pure transformer of `AppModel`. -/
def resolveIntent (fr : FreshIds) (st : AppModel) (intent : Intent)
    (data : Option CopilotData) : AppModel :=
  match intent, data with
  | Intent.CLIP_EDIT, some d => resolveClipEdit st d
  | Intent.REEL_ADD, some d => resolveReelAdd fr st d
  | Intent.REEL_REMOVE, some d => resolveReelRemove st d
  | Intent.REEL_CLEAR, _ => { st with reel := [] }
  | Intent.EDIT, some d => resolveEdit st d
  | Intent.SEARCH, some d => resolveSearch fr st d
  | _, _ => st

/-- The full command pipeline for one copilot response: the sanitization
in `processUserCommand` followed by the Edit Resolver in
`handleSendMessage`. -/
def pipeline (fr : FreshIds) (st : AppModel) (intent : Intent)
    (data : Option CopilotData) : AppModel :=
  resolveIntent fr st intent (sanitizeCopilot fr intent data)

/-- Effective end of a reel entry (App.tsx:424): the clip's end, or
`start + 5` when the end is not after the start. -/
def effectiveReelEnd (c : Clip) : ℚ :=
  if c.startTime < c.endTime then c.endTime else c.startTime + 5

/-- Effective end of a looping single clip (App.tsx:452): the clip's end,
or `start + 10` when the end is not after the start. -/
def effectiveSingleEnd (c : Clip) : ℚ :=
  if c.startTime < c.endTime then c.endTime else c.startTime + 10

/-- Whether a time lies inside some keep segment, `start ≤ t < end`
(App.tsx:461-463). -/
def inKeepSegment (segs : List TimeRange) (t : ℚ) : Bool :=
  segs.any fun s => decide (s.start ≤ t ∧ t < s.stop)

/-- The playback controller tick, `handleTimeUpdate` (App.tsx:413-479).
The REEL branch with an out-of-range cursor would fault in the source
(indexing past the array); it is modelled as a no-op and never reached by
the theorems below.  The returned state's `pulsed` field says whether this
tick called `triggerTransition`. -/
def tick (st : AppModel) : AppModel :=
  let t := st.currentTime
  let st0 := { st with pulsed := false }
  if st.playerMode = PlayerMode.REEL ∧ st.reel ≠ [] then
    match st.reel.get? st.reelCurrentIndex with
    | none => st0
    | some c =>
      if effectiveReelEnd c ≤ t then
        match st.reel.get? (st.reelCurrentIndex + 1) with
        | some nc =>
          let ns : ℚ := if nc.startTime < 0 then 0 else nc.startTime
          { st0 with
            pulsed := true
            reelCurrentIndex := st.reelCurrentIndex + 1
            currentTime := ns
            paused := false }
        | none => { st0 with paused := true, playerMode := PlayerMode.FULL }
      else st0
  else if st.playerMode = PlayerMode.SINGLE then
    match st.activeClipId, st.analysisData with
    | some aid, some ad =>
      if aid = "" then st0
      else
        match ad.clips.find? fun c => c.id == aid with
        | some c =>
          if effectiveSingleEnd c ≤ t then
            { st0 with currentTime := c.startTime, paused := false }
          else st0
        | none => st0
    | _, _ => st0
  else if st.playerMode = PlayerMode.FULL then
    match st.virtualEdit with
    | some ve =>
      if ve.isActive ∧ ve.keepSegments ≠ [] then
        if inKeepSegment ve.keepSegments t then st0
        else
          match ve.keepSegments.find? fun s => decide (t < s.start) with
          | some seg => { st0 with currentTime := seg.start }
          | none =>
            match st.duration with
            | some dur =>
              if t < dur - 1/2 then
                { st0 with paused := true, currentTime := dur }
              else st0
            | none => st0
      else st0
    | none => st0
  else st0

/-- The export loop's active-clip lookup (App.tsx:589): the first clip of
the export list whose window `[startTime, endTime + 0.5]` contains the
source's current time. -/
def findActiveClip (clips : List Clip) (t : ℚ) : Option Clip :=
  clips.find? fun c => decide (c.startTime ≤ t ∧ t ≤ c.endTime + 1/2)

/-- Keep an optional string only when it is JS-truthy. -/
def truthyStrOpt (a : Option String) : Option String :=
  if strTruthy a then a else none

/-- The export frame filter resolution (App.tsx:592-597): the active
clip's per-clip filter when truthy, else the global virtual edit's filter
when truthy, else the literal string `none`. -/
def resolveFilter (clips : List Clip) (edits : List (String × ClipEdit))
    (ve : Option VirtualEdit) (t : ℚ) : String :=
  match truthyStrOpt ((findActiveClip clips t).bind fun c =>
      (edits.lookup c.id).bind ClipEdit.filterStyle) with
  | some f => f
  | none =>
    match truthyStrOpt (ve.bind VirtualEdit.filterStyle) with
    | some f => f
    | none => "none"

/-- The clip-library invariant claimed by the spec:
`endTime > startTime ≥ 0`. -/
def validClip (c : Clip) : Prop :=
  0 ≤ c.startTime ∧ c.startTime < c.endTime

instance : DecidablePred validClip := fun c => by
  unfold validClip; infer_instance

/-! Concrete fixtures used by counterexamples and witnesses. -/

/-- A fixed source of generated ids for concrete runs. -/
def frX : FreshIds :=
  { sanitize := "gen-1"
    sanitizeAt := fun _ => "gen-a"
    search := "search-1"
    reelAt := fun _ => "reel-1" }

/-- The empty initial app state (fresh session). -/
def st0 : AppModel := {}

/-- A SEARCH payload carrying the not-localizable sentinel. -/
def c1data : CopilotData := { startTime := some (-1) }

/-- A REEL_ADD ad-hoc payload with explicit `endTime < startTime`. -/
def c2data : CopilotData := { id := some "x", startTime := some 5, endTime := some 3 }

/-- The clip that the REEL_ADD ad-hoc path stores for `c2data`. -/
def badClip : Clip :=
  { id := "x", title := "", description := "", startTime := 5, endTime := 3
    category := "", tags := [] }

/-- A generic well-formed clip. -/
def clipA : Clip :=
  { id := "a", title := "A", description := "", startTime := 1, endTime := 2
    category := "Other", tags := [] }

/-- An active virtual edit used to observe whether mode switches clear it. -/
def veC3 : VirtualEdit :=
  { isActive := true, description := none, keepSegments := [TimeRange.mk 0 5]
    filterStyle := none, transitionEffect := none }

/-- A state with an active virtual edit. -/
def stC3 : AppModel := { virtualEdit := some veC3 }

/-- An EDIT payload whose `keepSegments` is the explicit empty list. -/
def c4data : CopilotData := { keepSegments := some [] }

/-- A state whose video has a known duration of 100 s. -/
def stDur : AppModel := { duration := some 100 }

/-- The spec round-trip virtual edit: keep `[{0,5},{10,15}]` with a
non-NONE transition effect. -/
def veC5 : VirtualEdit :=
  { isActive := true, description := none
    keepSegments := [TimeRange.mk 0 5, TimeRange.mk 10 15]
    filterStyle := none, transitionEffect := some "FADE_BLACK" }

/-- FULL-mode state at time 7 with `veC5` active. -/
def stC5 : AppModel :=
  { playerMode := PlayerMode.FULL, virtualEdit := some veC5
    currentTime := 7, duration := some 60 }

/-- Reel entry `{start:0, end:5}` of the spec example. -/
def reelA : Clip :=
  { id := "ra", title := "", description := "", startTime := 0, endTime := 5
    category := "", tags := [] }

/-- Reel entry `{start:30, end:33}` of the spec example. -/
def reelB : Clip :=
  { id := "rb", title := "", description := "", startTime := 30, endTime := 33
    category := "", tags := [] }

/-- The rational 5.2, given in normal form so that kernel evaluation of
comparisons does not need to normalize. -/
def q52 : ℚ := ⟨26, 5, by norm_num, by norm_num⟩

/-- REEL-mode state at index 0 and time 5.2 over `[reelA, reelB]`. -/
def stC6 : AppModel :=
  { playerMode := PlayerMode.REEL, reel := [reelA, reelB]
    reelCurrentIndex := 0, currentTime := q52 }

/-- A state whose reel is non-empty. -/
def stReelNE : AppModel := { reel := [reelA], virtualEdit := some veC3 }

/-- A library with two clips, and a reel already holding one of them. -/
def stC7 : AppModel :=
  { analysisData := some { overallSummary := "s", clips := [clipA, reelB] }
    reel := [reelB] }

/-- The `REEL_ADD {all:true}` payload. -/
def c7data : CopilotData := { all := some true }

/-- A per-clip edit with a filter, for the export fixtures. -/
def editA : ClipEdit :=
  { id := "a", filterStyle := some "sepia(0.8)", subtitles := none, overlay := none }

/-- A virtual edit holding only a global filter. -/
def veC8 : VirtualEdit :=
  { isActive := true, description := none, keepSegments := []
    filterStyle := some "grayscale(1)", transitionEffect := none }

/-- A state with one stored per-clip edit and an active clip id. -/
def stC9 : AppModel :=
  { activeClipId := some "a"
    clipEdits := [("a",
      { id := "a", filterStyle := some "sepia(1)"
        subtitles := some "hello", overlay := none })] }

/-- A CLIP_EDIT payload mentioning only the subtitles field. -/
def c9data : CopilotData := { subtitles := some "bonjour" }

/-! Helper lemmas shared by the claim theorems. -/

/-- Every output of `sanitizeClip` satisfies the clip invariant. -/
theorem sanitizeClip_valid (fresh : String) (c : ClipPayload) :
    validClip (sanitizeClip fresh c) := by
  obtain ⟨i0, t0, d0, s0, e0, cat0, tg0⟩ := c
  unfold sanitizeClip validClip
  cases s0 <;> cases e0 <;> dsimp only <;> split_ifs <;>
    refine ⟨by linarith, by linarith⟩

/-- `sanitizeDataClips` only rewrites the `clips` field; every other
field of the payload is preserved. -/
theorem sanitizeDataClips_fields (fr : FreshIds) (d : CopilotData) :
    (sanitizeDataClips fr d).all = d.all ∧
    (sanitizeDataClips fr d).id = d.id ∧
    (sanitizeDataClips fr d).title = d.title ∧
    (sanitizeDataClips fr d).description = d.description ∧
    (sanitizeDataClips fr d).startTime = d.startTime ∧
    (sanitizeDataClips fr d).endTime = d.endTime ∧
    (sanitizeDataClips fr d).filterStyle = d.filterStyle ∧
    (sanitizeDataClips fr d).subtitles = d.subtitles ∧
    (sanitizeDataClips fr d).overlay = d.overlay ∧
    (sanitizeDataClips fr d).index = d.index ∧
    (sanitizeDataClips fr d).tags = d.tags ∧
    (sanitizeDataClips fr d).keepSegments = d.keepSegments ∧
    (sanitizeDataClips fr d).category = d.category ∧
    (sanitizeDataClips fr d).transitionEffect = d.transitionEffect := by
  unfold sanitizeDataClips
  cases d.clips <;>
    exact ⟨rfl, rfl, rfl, rfl, rfl, rfl, rfl, rfl, rfl, rfl, rfl, rfl, rfl, rfl⟩

/-- `sanitizeDataClips` preserves the `keepSegments` field. -/
theorem sanitizeDataClips_keepSegments (fr : FreshIds) (d : CopilotData) :
    (sanitizeDataClips fr d).keepSegments = d.keepSegments := by
  unfold sanitizeDataClips; cases d.clips <;> rfl

/-- `sanitizeDataClips` preserves the `all` field. -/
theorem sanitizeDataClips_all (fr : FreshIds) (d : CopilotData) :
    (sanitizeDataClips fr d).all = d.all := by
  unfold sanitizeDataClips; cases d.clips <;> rfl

/-- `sanitizeDataClips` preserves the `filterStyle` field. -/
theorem sanitizeDataClips_filterStyle (fr : FreshIds) (d : CopilotData) :
    (sanitizeDataClips fr d).filterStyle = d.filterStyle := by
  unfold sanitizeDataClips; cases d.clips <;> rfl

/-- `sanitizeDataClips` preserves the `subtitles` field. -/
theorem sanitizeDataClips_subtitles (fr : FreshIds) (d : CopilotData) :
    (sanitizeDataClips fr d).subtitles = d.subtitles := by
  unfold sanitizeDataClips; cases d.clips <;> rfl

/-- `sanitizeDataClips` preserves the `overlay` field. -/
theorem sanitizeDataClips_overlay (fr : FreshIds) (d : CopilotData) :
    (sanitizeDataClips fr d).overlay = d.overlay := by
  unfold sanitizeDataClips; cases d.clips <;> rfl

/-- `sanitizeCopilot` on a non-SEARCH intent is `sanitizeDataClips`. -/
theorem sanitizeCopilot_nonsearch (fr : FreshIds) (intent : Intent)
    (d : CopilotData) (h : intent ≠ Intent.SEARCH) :
    sanitizeCopilot fr intent (some d) = some (sanitizeDataClips fr d) := by
  simp only [sanitizeCopilot]
  rw [if_neg]
  intro hc
  exact h hc.1

/-- `playClip` touches only the player mode, the active clip id and the
video cursor. -/
theorem playClip_frame (st : AppModel) (c : Clip) :
    (playClip st c).analysisData = st.analysisData ∧
    (playClip st c).reel = st.reel ∧
    (playClip st c).virtualEdit = st.virtualEdit ∧
    (playClip st c).clipEdits = st.clipEdits := ⟨rfl, rfl, rfl, rfl⟩

/-- `clipsOf` ignores the playback-only state changes of `playClip`. -/
theorem clipsOf_playClip (st : AppModel) (c : Clip) :
    clipsOf (playClip st c) = clipsOf st := rfl

/-- The clip assembled by the SEARCH branch is valid whenever the payload
start time (defaulted to 0) is non-negative. -/
theorem searchClip_valid (fr : FreshIds) (p : CopilotData)
    (hp : 0 ≤ p.startTime.getD 0) : validClip (searchClip fr p) := by
  unfold searchClip validClip
  dsimp only
  split_ifs with h
  · exact ⟨hp, by linarith⟩
  · exact ⟨hp, not_le.mp h⟩

/-- The SEARCH branch of the resolver leaves the clip library unchanged
(sentinel or duplicate id) or prepends exactly the assembled search
clip. -/
theorem clipsOf_resolve_search (fr : FreshIds) (st : AppModel)
    (p : CopilotData) :
    clipsOf (resolveIntent fr st Intent.SEARCH (some p)) = clipsOf st ∨
    clipsOf (resolveIntent fr st Intent.SEARCH (some p)) =
      searchClip fr p :: clipsOf st := by
  show clipsOf (resolveSearch fr st p) = _ ∨ clipsOf (resolveSearch fr st p) = _
  unfold resolveSearch
  by_cases hneg : p.startTime = some (-1)
  · rw [if_pos hneg]; left; rfl
  · rw [if_neg hneg]
    by_cases hdup :
        ((clipsOf st).any fun c => c.id == (searchClip fr p).id) = true
    · left; rw [if_pos hdup, clipsOf_playClip]
    · right; rw [if_neg hdup, clipsOf_playClip]; rfl

/-- For a SEARCH intent, `sanitizeCopilot` always yields a payload whose
(defaulted) start time is non-negative: a defined start has passed through
`sanitizeClip`, an absent one defaults to 0. -/
theorem sanitizeCopilot_search_start (fr : FreshIds) (d : CopilotData) :
    ∃ p, sanitizeCopilot fr Intent.SEARCH (some d) = some p ∧
      0 ≤ p.startTime.getD 0 := by
  simp only [sanitizeCopilot]
  cases hs : (sanitizeDataClips fr d).startTime with
  | none =>
    rw [if_neg (by simp [hs])]
    exact ⟨_, rfl, by rw [hs]; norm_num⟩
  | some q =>
    rw [if_pos ⟨trivial, rfl⟩]
    refine ⟨_, rfl, ?_⟩
    have h := (sanitizeClip_valid fr.sanitize
      (toClipPayload (sanitizeDataClips fr d))).1
    simpa [mergeSanitized] using h

/-- Claim C1: the spec requires that a SEARCH intent whose payload carries
the sentinel `startTime === -1` leaves the clip library unchanged and is
only surfaced as an informational message.  The code violates this: the
sanitization inside `processUserCommand` rewrites `startTime` from -1 to 0
(and fabricates `endTime = 15`) before the resolver runs, so the
resolver's `-1` guard never fires; starting from an empty session, the
whole pipeline stores a derived clip in the library, plays it, and adds no
informational message. -/
theorem C1_search_sentinel_clip_enters_library :
    st0.analysisData = none ∧
    (pipeline frX st0 Intent.SEARCH (some c1data)).analysisData =
      some { overallSummary := "Search Results"
             clips := [{ id := "gen-1"
                         title := "Untitled Clip"
                         description := "No description provided."
                         startTime := 0
                         endTime := 15
                         category := "Other"
                         tags := [] }] } ∧
    (pipeline frX st0 Intent.SEARCH (some c1data)).playerMode =
      PlayerMode.SINGLE ∧
    (pipeline frX st0 Intent.SEARCH (some c1data)).infoMessages = [] := by
  refine ⟨rfl, ?_, rfl, rfl⟩
  norm_num [pipeline, sanitizeCopilot, sanitizeDataClips, mergeSanitized,
    toClipPayload, sanitizeClip, strOrD, resolveIntent, resolveSearch,
    searchClip, addSearchClip, clipsOf, playClip, strTruthy, frX, st0, c1data]
  decide

/-- Claim C2, counterexample: a `REEL_ADD` payload with explicit
`startTime = 5, endTime = 3` is stored in the clip library exactly as
sent, violating `endTime > startTime ≥ 0`. -/
theorem C2_reel_add_stores_invalid_clip :
    clipsOf (pipeline frX st0 Intent.REEL_ADD (some c2data)) = [badClip] ∧
    ¬ validClip badClip := ⟨by decide, by decide⟩

/-- Claim C2 (amended): every output of `sanitizeClip` satisfies
`endTime > startTime ≥ 0`, and the invariant is preserved by the two
sanitizing library paths — analysis ingestion and SEARCH resolution.  (The
REEL_ADD ad-hoc path of the original claim is excluded: it stores the
payload without sanitization, see the counterexample.) -/
theorem C2_sanitize_invariant_on_sanitizing_paths :
    (∀ fresh c, validClip (sanitizeClip fresh c)) ∧
    (∀ freshAt cs, ∀ c ∈ ingestClips freshAt cs, validClip c) ∧
    (∀ fr st d, (∀ c ∈ clipsOf st, validClip c) →
      ∀ c ∈ clipsOf (pipeline fr st Intent.SEARCH (some d)), validClip c) := by
  refine ⟨sanitizeClip_valid, ?_, ?_⟩
  · intro freshAt cs c hc
    obtain ⟨p, _, rfl⟩ := List.mem_map.mp hc
    exact sanitizeClip_valid _ _
  · intro fr st d hst c hc
    obtain ⟨p, hpe, hp⟩ := sanitizeCopilot_search_start fr d
    unfold pipeline at hc
    rw [hpe] at hc
    rcases clipsOf_resolve_search fr st p with h | h
    · rw [h] at hc; exact hst c hc
    · rw [h] at hc
      rcases List.mem_cons.mp hc with hceq | hmem
      · rw [hceq]; exact searchClip_valid fr p hp
      · exact hst c hmem

/-- Witness for C2: the amended theorem applied at a concrete payload with
a negative start, and at a concrete SEARCH resolution over the empty
library. -/
theorem C2_sanitize_invariant_on_sanitizing_paths_witness :
    validClip (sanitizeClip "g" { startTime := some (-3), endTime := some 100 }) ∧
    (∀ c ∈ clipsOf (pipeline frX st0 Intent.SEARCH (some c2data)), validClip c) :=
  ⟨C2_sanitize_invariant_on_sanitizing_paths.1 "g" _,
   C2_sanitize_invariant_on_sanitizing_paths.2.2 frX st0 c2data
     (fun c hc => absurd hc (List.not_mem_nil c))⟩

/-- Claim C10: `sanitizeClip` caps every clip at 30 seconds, and when the
payload `endTime` is missing (or non-finite) or not after the payload
`startTime`, the sanitized duration is exactly the 15-second default. -/
theorem C10_sanitize_duration_cap (fresh : String) (c : ClipPayload) :
    (sanitizeClip fresh c).endTime - (sanitizeClip fresh c).startTime ≤ 30 ∧
    ((c.endTime = none ∨
      ∃ qe qs, c.endTime = some qe ∧ c.startTime = some qs ∧ qe ≤ qs) →
      (sanitizeClip fresh c).endTime - (sanitizeClip fresh c).startTime = 15) := by
  obtain ⟨i0, t0, d0, s0, e0, cat0, tg0⟩ := c
  constructor
  · unfold sanitizeClip
    cases s0 <;> cases e0 <;> dsimp only <;> split_ifs <;> linarith
  · intro h
    rcases h with he | ⟨qe, qs, he, hs, hle⟩
    · simp only at he
      subst he
      unfold sanitizeClip
      cases s0 <;> dsimp only <;> split_ifs <;> linarith
    · simp only at he hs
      subst he; subst hs
      unfold sanitizeClip
      dsimp only
      split_ifs <;> linarith

/-- Witness for C10: the cap and the 15-second default at concrete
payloads. -/
theorem C10_sanitize_duration_cap_witness :
    (sanitizeClip "g" { startTime := some 10, endTime := some 100 }).endTime -
      (sanitizeClip "g" { startTime := some 10, endTime := some 100 }).startTime ≤ 30 ∧
    (sanitizeClip "g" { startTime := some 7 }).endTime -
      (sanitizeClip "g" { startTime := some 7 }).startTime = 15 :=
  ⟨(C10_sanitize_duration_cap "g" _).1,
   (C10_sanitize_duration_cap "g" { startTime := some 7 }).2 (Or.inl rfl)⟩

/-- Claim C3, counterexample: entering SINGLE mode via `playClip` with an
active VirtualEdit present leaves the VirtualEdit stored and active — it
is not cleared as the claim states. -/
theorem C3_playClip_keeps_virtual_edit :
    (playClip stC3 clipA).playerMode = PlayerMode.SINGLE ∧
    veC3.isActive = true ∧
    (playClip stC3 clipA).virtualEdit = some veC3 := ⟨rfl, rfl, rfl⟩

/-- Claim C3 (amended): entering REEL mode via `playReel` resets the reel
cursor to 0 and clears the active VirtualEdit; entering SINGLE mode via
`playClip` switches the mode and the active clip id but leaves the
VirtualEdit untouched. -/
theorem C3_mode_switch_state :
    (∀ st c, (playClip st c).playerMode = PlayerMode.SINGLE ∧
      (playClip st c).activeClipId = some c.id ∧
      (playClip st c).virtualEdit = st.virtualEdit) ∧
    (∀ st, st.reel ≠ [] →
      (playReel st).playerMode = PlayerMode.REEL ∧
      (playReel st).reelCurrentIndex = 0 ∧
      (playReel st).virtualEdit = none) := by
  constructor
  · intro st c; exact ⟨rfl, rfl, rfl⟩
  · intro st h
    cases hr : st.reel with
    | nil => exact absurd hr h
    | cons c cs =>
      unfold playReel
      rw [hr]
      exact ⟨rfl, rfl, rfl⟩

/-- Witness for C3: the amended theorem applied to a state with an active
virtual edit and to a state with a non-empty reel. -/
theorem C3_mode_switch_state_witness :
    (playClip stC3 clipA).virtualEdit = stC3.virtualEdit ∧
    (playReel stReelNE).reelCurrentIndex = 0 ∧
    (playReel stReelNE).virtualEdit = none :=
  ⟨(C3_mode_switch_state.1 stC3 clipA).2.2,
   (C3_mode_switch_state.2 stReelNE (by decide)).2.1,
   (C3_mode_switch_state.2 stReelNE (by decide)).2.2⟩

/-- Claim C4, counterexample: an EDIT payload whose `keepSegments` is the
explicit empty list is stored as the empty list (an empty JS array is
truthy), not defaulted to `[{0, duration}]`. -/
theorem C4_empty_keep_segments_not_defaulted :
    (pipeline frX stDur Intent.EDIT (some c4data)).virtualEdit.map
        VirtualEdit.keepSegments = some [] ∧
    some ([] : List TimeRange) ≠ some [TimeRange.mk 0 100] :=
  ⟨rfl, by decide⟩

/-- Claim C4 (amended): an EDIT intent replaces the VirtualEdit wholesale
— the stored edit is independent of the previous one and always active;
an absent `keepSegments` defaults to the single segment
`[{0, currentKnownDuration}]`; a present list (even the empty one) is
stored as-is. -/
theorem C4_edit_replaces_virtual_edit (fr : FreshIds) (st : AppModel)
    (d : CopilotData) (dur : ℚ) (hdur : st.duration = some dur)
    (hdz : dur ≠ 0) :
    (∀ ve0,
      (pipeline fr { st with virtualEdit := ve0 } Intent.EDIT (some d)).virtualEdit =
        (pipeline fr st Intent.EDIT (some d)).virtualEdit) ∧
    (pipeline fr st Intent.EDIT (some d)).virtualEdit.map VirtualEdit.isActive =
      some true ∧
    (d.keepSegments = none →
      (pipeline fr st Intent.EDIT (some d)).virtualEdit.map
        VirtualEdit.keepSegments = some [TimeRange.mk 0 dur]) ∧
    (∀ l, d.keepSegments = some l →
      (pipeline fr st Intent.EDIT (some d)).virtualEdit.map
        VirtualEdit.keepSegments = some l) := by
  have hsan := sanitizeCopilot_nonsearch fr Intent.EDIT d (by decide)
  have hks := sanitizeDataClips_keepSegments fr d
  refine ⟨fun ve0 => ?_, ?_, fun h => ?_, fun l h => ?_⟩
  · unfold pipeline; rw [hsan]; rfl
  · unfold pipeline; rw [hsan]; rfl
  · unfold pipeline
    rw [hsan]
    show some (newVirtualEdit st (sanitizeDataClips fr d)).keepSegments = _
    unfold newVirtualEdit
    rw [hks, h, hdur]
    simp [jsDuration, hdz]
  · unfold pipeline
    rw [hsan]
    show some (newVirtualEdit st (sanitizeDataClips fr d)).keepSegments = _
    unfold newVirtualEdit
    rw [hks, h]
    rfl

/-- Witness for C4: a payload without `keepSegments` over a 100-second
video yields the whole-video segment. -/
theorem C4_edit_replaces_virtual_edit_witness :
    (pipeline frX stDur Intent.EDIT (some ({} : CopilotData))).virtualEdit.map
      VirtualEdit.keepSegments = some [TimeRange.mk 0 100] :=
  (C4_edit_replaces_virtual_edit frX stDur {} 100 rfl (by decide)).2.2.1 rfl

/-- Claim C5, counterexample: in FULL mode with keep segments
`[{0,5},{10,15}]`, time 7 and a non-NONE transition effect, the tick does
seek to 10 but triggers no transition pulse (the claim asserts a pulse
when `transitionEffect !== NONE`; `triggerTransition` is only called on
REEL advancement). -/
theorem C5_full_skip_has_no_pulse :
    veC5.transitionEffect = some "FADE_BLACK" ∧
    (tick stC5).currentTime = 10 ∧
    (tick stC5).pulsed = false := by decide

/-- Claim C5 (amended): in FULL mode with an active VirtualEdit, on a tick
whose time lies in no keep segment: if some segment starts later, the
controller seeks to the first such segment's start — without any
transition pulse; otherwise, when the time is not within 0.5 s of the
source duration, it pauses and snaps to the duration. -/
theorem C5_full_mode_skip (st : AppModel) (ve : VirtualEdit)
    (hm : st.playerMode = PlayerMode.FULL)
    (hve : st.virtualEdit = some ve)
    (ha : ve.isActive = true)
    (hne : ve.keepSegments ≠ [])
    (hout : inKeepSegment ve.keepSegments st.currentTime = false) :
    (∀ seg,
      ve.keepSegments.find? (fun s => decide (st.currentTime < s.start)) =
        some seg →
      (tick st).currentTime = seg.start ∧ (tick st).pulsed = false ∧
      (tick st).paused = st.paused ∧
      (tick st).playerMode = PlayerMode.FULL) ∧
    (ve.keepSegments.find? (fun s => decide (st.currentTime < s.start)) = none →
      ∀ dur, st.duration = some dur → st.currentTime < dur - 1/2 →
      (tick st).paused = true ∧ (tick st).currentTime = dur ∧
      (tick st).pulsed = false) := by
  constructor
  · intro seg hseg
    unfold tick
    rw [hm, hve]
    simp [ha, hne, hout, hseg]
  · intro hnone dur hdur ht
    have ht' : st.currentTime < dur - 2⁻¹ := by rwa [one_div] at ht
    unfold tick
    rw [hm, hve]
    simp [ha, hne, hout, hnone, hdur, ht']

/-- Witness for C5: the spec round trip — segments `[{0,5},{10,15}]`,
time 7 — seeks to 10 with no pulse. -/
theorem C5_full_mode_skip_witness :
    (tick stC5).currentTime = (TimeRange.mk 10 15).start ∧
    (tick stC5).pulsed = false :=
  ⟨((C5_full_mode_skip stC5 veC5 rfl rfl rfl (by decide) (by decide)).1
      (TimeRange.mk 10 15) (by decide)).1,
   ((C5_full_mode_skip stC5 veC5 rfl rfl rfl (by decide) (by decide)).1
      (TimeRange.mk 10 15) (by decide)).2.1⟩

/-- Claim C6: in REEL mode, a tick at or past the current entry's
effective end advances to the next entry when one exists — with a
transition pulse, a seek to that entry's start and playback resumed — and
otherwise pauses and returns the player to FULL mode. -/
theorem C6_reel_advance (st : AppModel) (c : Clip)
    (hm : st.playerMode = PlayerMode.REEL)
    (hc : st.reel.get? st.reelCurrentIndex = some c)
    (ht : effectiveReelEnd c ≤ st.currentTime) :
    (∀ nc, st.reel.get? (st.reelCurrentIndex + 1) = some nc →
      0 ≤ nc.startTime →
      (tick st).playerMode = PlayerMode.REEL ∧
      (tick st).reelCurrentIndex = st.reelCurrentIndex + 1 ∧
      (tick st).pulsed = true ∧
      (tick st).currentTime = nc.startTime ∧
      (tick st).paused = false) ∧
    (st.reel.get? (st.reelCurrentIndex + 1) = none →
      (tick st).paused = true ∧ (tick st).playerMode = PlayerMode.FULL) := by
  have hnil : st.reel ≠ [] := by
    intro h; rw [h] at hc; simp at hc
  have hc' : st.reel[st.reelCurrentIndex]? = some c := by
    rw [← List.get?_eq_getElem?]; exact hc
  constructor
  · intro nc hnc h0
    have h0' : ¬ nc.startTime < 0 := not_lt.mpr h0
    have hnc' : st.reel[st.reelCurrentIndex + 1]? = some nc := by
      rw [← List.get?_eq_getElem?]; exact hnc
    unfold tick
    rw [hm]
    simp [hnil, hc', hnc', ht, h0']
  · intro hnone
    have hnone' : st.reel[st.reelCurrentIndex + 1]? = none := by
      rw [← List.get?_eq_getElem?]; exact hnone
    unfold tick
    rw [hm]
    simp [hnil, hc', hnone', ht]

/-- Witness for C6: reel `[{0,5},{30,33}]`, index 0, time 5.2 — the tick
advances to index 1, pulses, seeks to 30 and keeps playing. -/
theorem C6_reel_advance_witness :
    (tick stC6).reelCurrentIndex = 1 ∧ (tick stC6).currentTime = 30 ∧
    (tick stC6).pulsed = true :=
  ⟨((C6_reel_advance stC6 reelA rfl rfl (by decide)).1 reelB rfl
      (by decide)).2.1,
   ((C6_reel_advance stC6 reelA rfl rfl (by decide)).1 reelB rfl
      (by decide)).2.2.2.1,
   ((C6_reel_advance stC6 reelA rfl rfl (by decide)).1 reelB rfl
      (by decide)).2.2.1⟩

/-- Resolving `REEL_ADD {all:true}` leaves the library untouched and
appends the whole library to the reel. -/
theorem reelAdd_all (fr : FreshIds) (st : AppModel) (d : CopilotData)
    (h : d.all = some true) :
    (pipeline fr st Intent.REEL_ADD (some d)).analysisData = st.analysisData ∧
    (pipeline fr st Intent.REEL_ADD (some d)).reel = st.reel ++ clipsOf st := by
  have hsan := sanitizeCopilot_nonsearch fr Intent.REEL_ADD d (by decide)
  have hall : (sanitizeDataClips fr d).all = some true := by
    rw [sanitizeDataClips_all]; exact h
  unfold pipeline
  rw [hsan]
  show (resolveReelAdd fr st (sanitizeDataClips fr d)).analysisData = _ ∧
    (resolveReelAdd fr st (sanitizeDataClips fr d)).reel = _
  have hadd : reelAddClips fr st (sanitizeDataClips fr d) = clipsOf st := by
    unfold reelAddClips
    rw [if_pos hall]
  unfold resolveReelAdd
  rw [hadd]
  cases hcl : clipsOf st with
  | nil => exact ⟨rfl, by simp⟩
  | cons c0 rest =>
    dsimp only
    rw [if_pos hall]
    exact ⟨rfl, rfl⟩

/-- The library part of a non-`{all:true}` REEL_ADD only gains clips whose
id was not already present. -/
theorem clipsOf_reelAddLibrary (st : AppModel) (toAdd : List Clip) :
    ∀ c ∈ clipsOf (reelAddLibrary st toAdd),
      c ∈ clipsOf st ∨ ∀ oc ∈ clipsOf st, oc.id ≠ c.id := by
  intro c hc
  unfold reelAddLibrary at hc
  cases hfil : toAdd.filter
      (fun nc => !((clipsOf st).any fun oc => oc.id == nc.id)) with
  | nil => rw [hfil] at hc; left; exact hc
  | cons u us =>
    rw [hfil] at hc
    replace hc : c ∈ (u :: us) ++ clipsOf st := hc
    rcases List.mem_append.mp hc with hmem | hmem
    · right
      rw [← hfil] at hmem
      obtain ⟨-, hpred⟩ := List.mem_filter.mp hmem
      have hany : ((clipsOf st).any fun oc => oc.id == c.id) = false := by
        simpa using hpred
      intro oc hoc heq
      have : ((clipsOf st).any fun oc => oc.id == c.id) = true :=
        List.any_eq_true.mpr ⟨oc, hoc, beq_iff_eq.mpr heq⟩
      rw [this] at hany
      cases hany
    · left; exact hmem

/-- Claim C7: resolving `REEL_ADD {all:true}` appends the current library
to the reel and leaves the library unchanged, so doing it twice duplicates
only reel entries; and for every REEL_ADD payload shape, a clip added to
the library has an id that was not there before (library additions are
id-deduplicated). -/
theorem C7_reel_add_all_idempotent_library (fr : FreshIds) (st : AppModel)
    (d : CopilotData) (h : d.all = some true) :
    ((pipeline fr st Intent.REEL_ADD (some d)).analysisData =
        st.analysisData ∧
      (pipeline fr st Intent.REEL_ADD (some d)).reel =
        st.reel ++ clipsOf st ∧
      (pipeline fr (pipeline fr st Intent.REEL_ADD (some d))
          Intent.REEL_ADD (some d)).analysisData = st.analysisData ∧
      (pipeline fr (pipeline fr st Intent.REEL_ADD (some d))
          Intent.REEL_ADD (some d)).reel =
        st.reel ++ clipsOf st ++ clipsOf st) ∧
    (∀ d2 c, c ∈ clipsOf (pipeline fr st Intent.REEL_ADD (some d2)) →
      c ∈ clipsOf st ∨ ∀ oc ∈ clipsOf st, oc.id ≠ c.id) := by
  constructor
  · obtain ⟨h1, h2⟩ := reelAdd_all fr st d h
    obtain ⟨h3, h4⟩ :=
      reelAdd_all fr (pipeline fr st Intent.REEL_ADD (some d)) d h
    have hco : clipsOf (pipeline fr st Intent.REEL_ADD (some d)) =
        clipsOf st := by
      unfold clipsOf; rw [h1]
    exact ⟨h1, h2, by rw [h3, h1], by rw [h4, h2, hco]⟩
  · intro d2 c hc
    rw [pipeline, sanitizeCopilot_nonsearch fr Intent.REEL_ADD d2 (by decide)]
      at hc
    replace hc : c ∈ clipsOf
        (resolveReelAdd fr st (sanitizeDataClips fr d2)) := hc
    unfold resolveReelAdd at hc
    cases hadd : reelAddClips fr st (sanitizeDataClips fr d2) with
    | nil => rw [hadd] at hc; left; exact hc
    | cons c0 rest =>
      rw [hadd, clipsOf_playClip] at hc
      by_cases hall : (sanitizeDataClips fr d2).all = some true
      · rw [if_pos hall] at hc
        left; exact hc
      · rw [if_neg hall] at hc
        have hres := clipsOf_reelAddLibrary
          { st with reel := st.reel ++ (c0 :: rest) } (c0 :: rest) c hc
        exact hres

/-- Witness for C7: over a two-clip library with one reel entry, the
`{all:true}` intent applied twice leaves the library as-is and appends it
to the reel both times; the dedup property instantiated at the same
state. -/
theorem C7_reel_add_all_idempotent_library_witness :
    (pipeline frX (pipeline frX stC7 Intent.REEL_ADD (some c7data))
        Intent.REEL_ADD (some c7data)).analysisData = stC7.analysisData ∧
    (pipeline frX (pipeline frX stC7 Intent.REEL_ADD (some c7data))
        Intent.REEL_ADD (some c7data)).reel =
      stC7.reel ++ clipsOf stC7 ++ clipsOf stC7 :=
  ⟨((C7_reel_add_all_idempotent_library frX stC7 c7data rfl).1).2.2.1,
   ((C7_reel_add_all_idempotent_library frX stC7 c7data rfl).1).2.2.2⟩

/-- Claim C8: during export, the active clip for the source's current
time is a clip of the export list whose window `[startTime, endTime+0.5]`
contains it, and the frame filter resolves with precedence per-clip
filter, then global virtual-edit filter, then the literal `none`. -/
theorem C8_export_filter_precedence (clips : List Clip)
    (edits : List (String × ClipEdit)) (ve : Option VirtualEdit) (t : ℚ) :
    (∀ c, findActiveClip clips t = some c →
      c ∈ clips ∧ c.startTime ≤ t ∧ t ≤ c.endTime + 1/2) ∧
    (∀ c f, findActiveClip clips t = some c →
      (edits.lookup c.id).bind ClipEdit.filterStyle = some f → f ≠ "" →
      resolveFilter clips edits ve t = f) ∧
    (truthyStrOpt ((findActiveClip clips t).bind fun c =>
        (edits.lookup c.id).bind ClipEdit.filterStyle) = none →
      ∀ f, ve.bind VirtualEdit.filterStyle = some f → f ≠ "" →
      resolveFilter clips edits ve t = f) ∧
    (truthyStrOpt ((findActiveClip clips t).bind fun c =>
        (edits.lookup c.id).bind ClipEdit.filterStyle) = none →
      truthyStrOpt (ve.bind VirtualEdit.filterStyle) = none →
      resolveFilter clips edits ve t = "none") := by
  refine ⟨?_, ?_, ?_, ?_⟩
  · intro c hc
    have hc' : clips.find?
        (fun c => decide (c.startTime ≤ t ∧ t ≤ c.endTime + 1/2)) = some c := hc
    have hp : c.startTime ≤ t ∧ t ≤ c.endTime + 1/2 := by
      have hq := List.find?_some hc'
      simpa using hq
    exact ⟨List.mem_of_find?_eq_some hc', hp⟩
  · intro c f hc hf hne
    unfold resolveFilter
    rw [hc]
    simp [hf, truthyStrOpt, strTruthy, hne]
  · intro hnone f hf hne
    unfold resolveFilter
    rw [hnone, hf]
    simp [truthyStrOpt, strTruthy, hne]
  · intro hnone1 hnone2
    unfold resolveFilter
    rw [hnone1, hnone2]

/-- Witness for C8: at time 2 over a one-clip list, the per-clip filter
wins; with no active per-clip filter the global filter wins. -/
theorem C8_export_filter_precedence_witness :
    resolveFilter [clipA] [("a", editA)] (some veC8) 2 = "sepia(0.8)" ∧
    resolveFilter [clipA] [] (some veC8) 2 = "grayscale(1)" := by
  refine
    ⟨(C8_export_filter_precedence [clipA] [("a", editA)] (some veC8) 2).2.1
        clipA "sepia(0.8)" ?_ ?_ ?_,
     (C8_export_filter_precedence [clipA] [] (some veC8) 2).2.2.1 ?_
        "grayscale(1)" ?_ ?_⟩
  · show List.find? _ _ = _
    norm_num [List.find?, clipA]
  · rfl
  · decide
  · show truthyStrOpt (Option.bind (List.find? _ _) _) = none
    norm_num [List.find?, clipA, truthyStrOpt, strTruthy]
  · rfl
  · decide

/-- Merged-edit lookup: the head of the updated association list. -/
theorem lookup_cons_self {β : Type} (k : String) (b : β)
    (l : List (String × β)) : ((k, b) :: l).lookup k = some b := by
  simp [List.lookup]

/-- Lookup of a different key skips the new head entry. -/
theorem lookup_cons_ne {β : Type} (k a : String) (b : β)
    (l : List (String × β)) (h : k ≠ a) :
    ((a, b) :: l).lookup k = l.lookup k := by
  have hb : (k == a) = false := beq_eq_false_iff_ne.mpr h
  simp [List.lookup, hb]

/-- Claim C9: a CLIP_EDIT intent merges field-wise into the active clip's
stored edit — a (truthy) payload field wins, an absent one keeps the
previously stored value — and the stored edit of every other clip id is
unchanged. -/
theorem C9_clip_edit_field_merge (fr : FreshIds) (st : AppModel)
    (d : CopilotData) (aid : String) (ha : st.activeClipId = some aid)
    (hne : aid ≠ "") :
    (strTruthy d.filterStyle = true →
      ((pipeline fr st Intent.CLIP_EDIT (some d)).clipEdits.lookup aid).bind
        ClipEdit.filterStyle = d.filterStyle) ∧
    (strTruthy d.filterStyle = false →
      ((pipeline fr st Intent.CLIP_EDIT (some d)).clipEdits.lookup aid).bind
        ClipEdit.filterStyle =
        (st.clipEdits.lookup aid).bind ClipEdit.filterStyle) ∧
    (strTruthy d.subtitles = true →
      ((pipeline fr st Intent.CLIP_EDIT (some d)).clipEdits.lookup aid).bind
        ClipEdit.subtitles = d.subtitles) ∧
    (strTruthy d.subtitles = false →
      ((pipeline fr st Intent.CLIP_EDIT (some d)).clipEdits.lookup aid).bind
        ClipEdit.subtitles =
        (st.clipEdits.lookup aid).bind ClipEdit.subtitles) ∧
    (∀ o, d.overlay = some o →
      ((pipeline fr st Intent.CLIP_EDIT (some d)).clipEdits.lookup aid).bind
        ClipEdit.overlay = some o) ∧
    (d.overlay = none →
      ((pipeline fr st Intent.CLIP_EDIT (some d)).clipEdits.lookup aid).bind
        ClipEdit.overlay =
        (st.clipEdits.lookup aid).bind ClipEdit.overlay) ∧
    (∀ k, k ≠ aid →
      (pipeline fr st Intent.CLIP_EDIT (some d)).clipEdits.lookup k =
        st.clipEdits.lookup k) := by
  have hsan := sanitizeCopilot_nonsearch fr Intent.CLIP_EDIT d (by decide)
  have hedits : (pipeline fr st Intent.CLIP_EDIT (some d)).clipEdits =
      (aid, mergedClipEdit st aid (sanitizeDataClips fr d)) :: st.clipEdits := by
    unfold pipeline
    rw [hsan]
    show (resolveClipEdit st (sanitizeDataClips fr d)).clipEdits = _
    unfold resolveClipEdit
    rw [ha]
    simp [hne]
  have hfs := sanitizeDataClips_filterStyle fr d
  have hsub := sanitizeDataClips_subtitles fr d
  have hov := sanitizeDataClips_overlay fr d
  rw [hedits]
  refine ⟨?_, ?_, ?_, ?_, ?_, ?_, ?_⟩
  · intro htr
    rw [lookup_cons_self]
    simp [mergedClipEdit, jsOrStr, hfs, htr]
  · intro htr
    rw [lookup_cons_self]
    simp [mergedClipEdit, jsOrStr, hfs, htr]
  · intro htr
    rw [lookup_cons_self]
    simp [mergedClipEdit, jsOrStr, hsub, htr]
  · intro htr
    rw [lookup_cons_self]
    simp [mergedClipEdit, jsOrStr, hsub, htr]
  · intro o ho
    rw [lookup_cons_self]
    simp [mergedClipEdit, hov, ho]
  · intro ho
    rw [lookup_cons_self]
    simp [mergedClipEdit, hov, ho]
  · intro k hk
    rw [lookup_cons_ne _ _ _ _ hk]

/-- Witness for C9: on a stored edit `{filter: sepia(1), subtitles:
hello}` of clip `a`, a payload mentioning only `subtitles` replaces the
subtitles, keeps the filter, and leaves other ids untouched. -/
theorem C9_clip_edit_field_merge_witness :
    ((pipeline frX stC9 Intent.CLIP_EDIT (some c9data)).clipEdits.lookup
      "a").bind ClipEdit.subtitles = some "bonjour" ∧
    ((pipeline frX stC9 Intent.CLIP_EDIT (some c9data)).clipEdits.lookup
      "a").bind ClipEdit.filterStyle = some "sepia(1)" ∧
    (pipeline frX stC9 Intent.CLIP_EDIT (some c9data)).clipEdits.lookup "b" =
      stC9.clipEdits.lookup "b" := by
  refine
    ⟨(C9_clip_edit_field_merge frX stC9 c9data "a" rfl (by decide)).2.2.1
        (by decide),
     ?_,
     (C9_clip_edit_field_merge frX stC9 c9data "a" rfl (by decide)).2.2.2.2.2.2
        "b" (by decide)⟩
  have h := (C9_clip_edit_field_merge frX stC9 c9data "a" rfl
    (by decide)).2.1 (by decide)
  rw [h]
  decide

end SmartClip
